import Mathlib

/-!
Shallow embedding of the pawnshop module (Odoo addon `pawnshop`) for checking
its natural-language specification.

Conventions of the embedding:
* Monetary amounts and rates are rationals (`Rat`); the Python source uses
  floats, but all the arithmetic under scrutiny is exact on the inputs used.
* Dates are integers (`Int`), a day number; `d2 - d1` is the `.days` of the
  Python `timedelta`, and `relativedelta(days=g)` is `+ g`.
* Odoo falsy fields: an unset `Many2one` (empty recordset) and an unset
  `Date`/`Monetary` (Python `False` / `0.0`, which the source only ever
  tests with truthiness) are both modelled as `Option.none`.
* Configuration parameters (`ir.config_parameter`) are an explicit `Config`
  record with the defaults declared in `res_config_settings.py`.
* A raised `UserError`/`ValidationError` is `Except.error msg`; Odoo rolls
  the transaction back, so an error leaves every record unchanged, which the
  pure embedding models by returning no new record at all.
-/

/-- One line of a rate table (`pawn.rate.table.line`).
`category_id`/`branch_id` are the optional filters, `amount_to = none`
means no upper bound (the source tests `not l.amount_to`, so the falsy
values `False` and `0.0` both land in `none`). -/
structure RateLine where
  category_id : Option Nat
  branch_id : Option Nat
  amount_from : Rat
  amount_to : Option Rat
  rate_percent : Rat
deriving DecidableEq, Repr

/-- A rate table (`pawn.rate.table`): validity window plus its lines. -/
structure RateTable where
  date_from : Int
  date_to : Option Int
  line_ids : List RateLine
deriving DecidableEq, Repr

/-- The filter predicate of `get_applicable_rate` (pawn_rate_table.py,
lines 103-110): `l.amount_from <= loan_amount and
(not l.amount_to or loan_amount <= l.amount_to) and
(not l.category_id or l.category_id.id == category_id) and
(not l.branch_id or l.branch_id.id == branch_id)`. -/
def lineMatches (l : RateLine) (loan_amount : Rat)
    (category_id branch_id : Option Nat) : Bool :=
  decide (l.amount_from ≤ loan_amount) &&
  (match l.amount_to with
   | none => true
   | some hi => decide (loan_amount ≤ hi)) &&
  (match l.category_id with
   | none => true
   | some c => category_id == some c) &&
  (match l.branch_id with
   | none => true
   | some b => branch_id == some b)

/-- Specificity of a rate line: the sort key
`(bool(l.category_id), bool(l.branch_id))` of the source, mapped
monotonically (for the lexicographic order on Bool pairs) to `Nat`. -/
def specKey (l : RateLine) : Nat :=
  (if l.category_id.isSome then 2 else 0) + (if l.branch_id.isSome then 1 else 0)

/-- Keep the later maximum `m` only when it is strictly more specific than
the current head `l`; ties go to the head, i.e. to the earlier line. -/
def pickBetter (l : RateLine) (o : Option RateLine) : Option RateLine :=
  match o with
  | none => some l
  | some m => if specKey m > specKey l then some m else some l

/-- First element of the list with maximal `specKey`; this is
`sorted(key=..., reverse=True)[0]` of the source, because Python sorting is
stable (ties keep list order). -/
def argmaxFirst : List RateLine → Option RateLine
  | [] => none
  | l :: ls => pickBetter l (argmaxFirst ls)

/-- The validity-window test of `get_applicable_rate` (pawn_rate_table.py,
line 99): `date < self.date_from or (self.date_to and date > self.date_to)`. -/
def outsideValidity (tbl : RateTable) (date : Int) : Bool :=
  decide (date < tbl.date_from) ||
  (match tbl.date_to with | some dto => decide (date > dto) | none => false)

/-- `PawnRateTable.get_applicable_rate` (pawn_rate_table.py, lines 89-120):
fails (`None`-like `False`, here `none`) when the date is outside the
table validity window or no line matches; otherwise returns the
`rate_percent` of the most specific matching line. -/
def get_applicable_rate (tbl : RateTable) (loan_amount : Rat)
    (category_id branch_id : Option Nat) (date : Int) : Option Rat :=
  if outsideValidity tbl date then
    none
  else
    let applicable := tbl.line_ids.filter
      (fun l => lineMatches l loan_amount category_id branch_id)
    match argmaxFirst applicable with
    | none => none
    | some l => some l.rate_percent

/-- Spec-side matching predicate, written from the claim text of C1 as
amended: `amount_from <= amount <= amount_to` (no upper bound when
`amount_to` is unset), and each of the category/branch filters is either
unset or equal to the given one. -/
def specLineMatches (l : RateLine) (amount : Rat)
    (category branch : Option Nat) : Bool :=
  decide (l.amount_from ≤ amount) &&
  (match l.amount_to with
   | none => true
   | some hi => decide (amount ≤ hi)) &&
  (match l.category_id with
   | none => true
   | some c => category == some c) &&
  (match l.branch_id with
   | none => true
   | some b => branch == some b)

/-- Spec-side matching predicate written verbatim from the claim text of C1
as frozen: a line matches iff `amount_from <= amount < amount_to`
(strict upper bound; no upper bound when `amount_to` is unset), the
category/branch filters unset or equal. -/
def specLineMatchesStrict (l : RateLine) (amount : Rat)
    (category branch : Option Nat) : Bool :=
  decide (l.amount_from ≤ amount) &&
  (match l.amount_to with
   | none => true
   | some hi => decide (amount < hi)) &&
  (match l.category_id with
   | none => true
   | some c => category == some c) &&
  (match l.branch_id with
   | none => true
   | some b => branch == some b)

theorem pickBetter_ne_none (l : RateLine) (o : Option RateLine) :
    pickBetter l o ≠ none := by
  cases o with
  | none => simp [pickBetter]
  | some m =>
    simp only [pickBetter]
    split <;> simp

theorem pickBetter_cases {l m : RateLine} {o : Option RateLine}
    (h : pickBetter l o = some m) :
    m = l ∨ (o = some m ∧ specKey l < specKey m) := by
  cases o with
  | none => simp [pickBetter] at h; exact Or.inl h.symm
  | some m2 =>
    simp only [pickBetter] at h
    by_cases hk : specKey m2 > specKey l
    · rw [if_pos hk] at h
      simp at h
      exact Or.inr ⟨by rw [h], h ▸ hk⟩
    · rw [if_neg hk] at h
      simp at h
      exact Or.inl h.symm

theorem pickBetter_ge_head {l m : RateLine} {o : Option RateLine}
    (h : pickBetter l o = some m) : specKey l ≤ specKey m := by
  rcases pickBetter_cases h with h | ⟨_, h⟩
  · exact le_of_eq (congrArg specKey h.symm)
  · exact le_of_lt h

theorem pickBetter_ge_tail {l m m2 : RateLine} {o : Option RateLine}
    (h : pickBetter l o = some m) (ho : o = some m2) :
    specKey m2 ≤ specKey m := by
  subst ho
  simp only [pickBetter] at h
  by_cases hk : specKey m2 > specKey l
  · rw [if_pos hk] at h; simp at h; exact le_of_eq (congrArg specKey h)
  · rw [if_neg hk] at h; simp at h
    have := congrArg specKey h
    omega

theorem argmaxFirst_eq_none {ls : List RateLine} :
    argmaxFirst ls = none ↔ ls = [] := by
  cases ls with
  | nil => simp [argmaxFirst]
  | cons l ls =>
    constructor
    · intro h
      rw [argmaxFirst] at h
      exact absurd h (pickBetter_ne_none l _)
    · intro h; simp at h

theorem argmaxFirst_mem {ls : List RateLine} {m : RateLine}
    (h : argmaxFirst ls = some m) : m ∈ ls := by
  induction ls with
  | nil => simp [argmaxFirst] at h
  | cons l ls ih =>
    rw [argmaxFirst] at h
    rcases pickBetter_cases h with h2 | ⟨h2, _⟩
    · simp [h2]
    · exact List.mem_cons_of_mem _ (ih h2)

theorem argmaxFirst_maximal {ls : List RateLine} {m : RateLine}
    (h : argmaxFirst ls = some m) :
    ∀ x ∈ ls, specKey x ≤ specKey m := by
  induction ls generalizing m with
  | nil => simp [argmaxFirst] at h
  | cons l ls ih =>
    rw [argmaxFirst] at h
    intro x hx
    rcases List.mem_cons.mp hx with hx | hx
    · subst hx; exact pickBetter_ge_head h
    · cases hm : argmaxFirst ls with
      | none =>
        rw [argmaxFirst_eq_none.mp hm] at hx
        exact absurd hx (List.not_mem_nil x)
      | some m2 =>
        have h1 := ih hm x hx
        have h2 := pickBetter_ge_tail h hm
        omega

/-! ## Configuration, ticket data model and computed fields -/

/-- The `pawnshop.*` keys of `ir.config_parameter`, with the defaults
declared in `res_config_settings.py` (and used as `get_param` defaults in
the ticket model). Product parameters are `none` when not configured. -/
structure Config where
  grace_period_days : Int := 7
  penalty_rate_percent : Rat := 3
  service_fee_type : String := "percent"
  service_fee_percent : Rat := 1
  service_fee_amount : Rat := 0
  max_ltv : Rat := 80
  min_loan_amount : Rat := 100
  max_loan_amount : Rat := 500000
  interest_product_id : Option Nat := none
  penalty_product_id : Option Nat := none
  service_fee_product_id : Option Nat := none
deriving DecidableEq, Repr

/-- The six values of the `state` selection field of `pawn.ticket`
(pawn_ticket.py, lines 187-195). -/
inductive TicketState
  | draft
  | pledged
  | renewed
  | redeemed
  | forfeited
  | cancelled
deriving DecidableEq, Repr

/-- The stored string value of each ticket state, as it appears in the
database column that the report SQL views compare against. -/
def stateKey : TicketState → String
  | .draft => "draft"
  | .pledged => "pledged"
  | .renewed => "renewed"
  | .redeemed => "redeemed"
  | .forfeited => "forfeited"
  | .cancelled => "cancelled"

/-- The three stock locations the module moves collateral between:
`stock.stock_location_customers`, `pawnshop.stock_location_pawn_custody`
and `pawnshop.stock_location_pawn_forfeited`. -/
inductive StockLocation
  | customers
  | custody
  | forfeitedInv
deriving DecidableEq, Repr

/-- Lifecycle state of a stock move; the module only ever queries
`m.state == 'done'`, and every move it creates is immediately run through
`_action_confirm()` and `_action_done()` of the host inventory engine,
which completes it. -/
inductive MoveState
  | draftMove
  | done
deriving DecidableEq, Repr

/-- A `stock.move` linked to a pawn ticket line, restricted to the fields
the module reads back. -/
structure StockMove where
  location_id : StockLocation
  location_dest_id : StockLocation
  state : MoveState
deriving DecidableEq, Repr

/-- A `pawn.ticket.line` (pawn_ticket_line.py), restricted to the fields
the claims touch. `product_id = none` until `_create_stock_move` creates a
tracking product for the item. -/
structure PawnTicketLine where
  product_id : Option Nat
  appraised_value : Rat
  stock_move_ids : List StockMove
deriving DecidableEq, Repr

/-- A `pawn.ticket` (pawn_ticket.py), restricted to the fields the claims
touch. Unset dates are `none`. -/
structure PawnTicket where
  state : TicketState
  principal_amount : Rat
  interest_rate : Rat
  date_pledged : Option Int
  date_maturity : Option Int
  date_redeemed : Option Int := none
  date_forfeited : Option Int := none
  line_ids : List PawnTicketLine
deriving DecidableEq, Repr

/-- `_compute_amounts` (pawn_ticket.py, lines 373-377): sum of the line
appraised values. -/
def appraised_value (t : PawnTicket) : Rat :=
  (t.line_ids.map PawnTicketLine.appraised_value).sum

/-- `_compute_ltv_ratio` (pawn_ticket.py, lines 379-386). -/
def compute_ltv (t : PawnTicket) : Rat :=
  if appraised_value t > 0 then
    t.principal_amount / appraised_value t * 100
  else 0

/-- `_check_ltv_ratio` (pawn_ticket.py, lines 615-625): validation
constraint raised at save time. -/
def check_ltv (cfg : Config) (t : PawnTicket) : Except String Unit :=
  if compute_ltv t > cfg.max_ltv then
    .error "LTV ratio exceeds maximum allowed."
  else .ok ()

/-- `_compute_date_grace_end` (pawn_ticket.py, lines 388-398):
`date_maturity + relativedelta(days=grace_days)`, unset without a
maturity date. -/
def date_grace_end (cfg : Config) (t : PawnTicket) : Option Int :=
  match t.date_maturity with
  | some m => some (m + cfg.grace_period_days)
  | none => none

/-- `is_due_today` as set by `_compute_status_indicators` (pawn_ticket.py,
lines 470-512): false for draft/cancelled and redeemed/forfeited, else
`date_maturity == today`. -/
def is_due_today (today : Int) (t : PawnTicket) : Bool :=
  if t.state = .draft ∨ t.state = .cancelled then false
  else if t.state = .redeemed ∨ t.state = .forfeited then false
  else t.date_maturity == some today

/-- `is_overdue` as set by `_compute_status_indicators`: false for
draft/cancelled and redeemed/forfeited, else
`date_maturity < today if date_maturity else False`. -/
def is_overdue (today : Int) (t : PawnTicket) : Bool :=
  if t.state = .draft ∨ t.state = .cancelled then false
  else if t.state = .redeemed ∨ t.state = .forfeited then false
  else match t.date_maturity with
    | some m => decide (m < today)
    | none => false

/-- `is_in_grace` as set by `_compute_status_indicators`: false for
draft/cancelled and redeemed/forfeited, else
`(is_overdue and date_grace_end >= today) if date_grace_end else False`
(that is how Python parses the source expression). -/
def is_in_grace (cfg : Config) (today : Int) (t : PawnTicket) : Bool :=
  if t.state = .draft ∨ t.state = .cancelled then false
  else if t.state = .redeemed ∨ t.state = .forfeited then false
  else match date_grace_end cfg t with
    | some g => is_overdue today t && decide (g ≥ today)
    | none => false

/-- The interest half of `_compute_interest_penalty` (pawn_ticket.py,
lines 400-426): 0 for draft/cancelled and when either date is unset, else
`principal * (rate/100) * ((maturity - pledged).days / 30)`. -/
def interest_amount (t : PawnTicket) : Rat :=
  if t.state = .draft ∨ t.state = .cancelled then 0
  else match t.date_pledged, t.date_maturity with
    | some p, some m =>
      t.principal_amount * (t.interest_rate / 100) * (((m - p : Int) : Rat) / 30)
    | _, _ => 0

/-- The penalty half of `_compute_interest_penalty`: 0 for draft/cancelled
and when the `is_overdue` flag is off, else
`principal * (penalty_rate/100) * ((today - maturity).days / 30)`. -/
def penalty_amount (cfg : Config) (today : Int) (t : PawnTicket) : Rat :=
  if t.state = .draft ∨ t.state = .cancelled then 0
  else if is_overdue today t then
    match t.date_maturity with
    | some m =>
      t.principal_amount * (cfg.penalty_rate_percent / 100) *
        (((today - m : Int) : Rat) / 30)
    | none => 0
  else 0

/-- `_compute_service_fee` (pawn_ticket.py, lines 428-454): fixed amount,
percentage of principal, sum of both, or 0 for an unrecognized mode. -/
def service_fee (cfg : Config) (t : PawnTicket) : Rat :=
  if cfg.service_fee_type = "fixed" then cfg.service_fee_amount
  else if cfg.service_fee_type = "percent" then
    t.principal_amount * (cfg.service_fee_percent / 100)
  else if cfg.service_fee_type = "both" then
    t.principal_amount * (cfg.service_fee_percent / 100) + cfg.service_fee_amount
  else 0

/-- `_compute_total_due` (pawn_ticket.py, lines 456-468): 0 for
redeemed/forfeited/cancelled, else principal + interest + penalty +
service fee. -/
def total_due (cfg : Config) (today : Int) (t : PawnTicket) : Rat :=
  if t.state = .redeemed ∨ t.state = .forfeited ∨ t.state = .cancelled then 0
  else
    t.principal_amount + interest_amount t + penalty_amount cfg today t +
      service_fee cfg t

/-! ## Line-level inventory operations -/

/-- A freshly created move, immediately confirmed and completed
(`_action_confirm()` then `_action_done()` of the host inventory engine). -/
def mkDoneMove (src dst : StockLocation) : StockMove :=
  { location_id := src, location_dest_id := dst, state := .done }

/-- Completed moves of the line into the given destination:
`self.stock_move_ids.filtered(lambda m: m.location_dest_id == loc and
m.state == 'done')`. -/
def doneMovesTo (l : PawnTicketLine) (dst : StockLocation) : List StockMove :=
  l.stock_move_ids.filter (fun m => m.location_dest_id == dst && m.state == .done)

/-- `PawnTicketLine._create_stock_move` (pawn_ticket_line.py, lines
264-334), with `tstate` the related ticket state: reject unless
draft/pledged; create a tracking product when the line has none (its
identity is irrelevant here, a placeholder id is used); skip and return
the existing completed custody move when there is one; otherwise issue a
customers-to-custody move and complete it. -/
def create_stock_move (tstate : TicketState) (l : PawnTicketLine) :
    Except String (PawnTicketLine × StockMove) :=
  if ¬ (tstate = .draft ∨ tstate = .pledged) then
    .error "Cannot create stock move for item in this state."
  else
    let l1 := if l.product_id = none then { l with product_id := some 0 } else l
    match doneMovesTo l1 .custody with
    | e :: _ => .ok (l1, e)
    | [] =>
      let m := mkDoneMove .customers .custody
      .ok ({ l1 with stock_move_ids := l1.stock_move_ids ++ [m] }, m)

/-- `PawnTicketLine._forfeit_item` (pawn_ticket_line.py, lines 336-382):
reject unless the (related) ticket state is forfeited or the line has no
product; skip and return the existing completed move into forfeited
inventory when there is one; otherwise issue a custody-to-forfeited move
and complete it. -/
def forfeit_item (tstate : TicketState) (l : PawnTicketLine) :
    Except String (PawnTicketLine × StockMove) :=
  if tstate ≠ .forfeited then
    .error "Cannot forfeit item that is not in forfeited state."
  else match l.product_id with
  | none => .error "No product associated with this item."
  | some _ =>
    match doneMovesTo l .forfeitedInv with
    | e :: _ => .ok (l, e)
    | [] =>
      let m := mkDoneMove .custody .forfeitedInv
      .ok ({ l with stock_move_ids := l.stock_move_ids ++ [m] }, m)

/-- `PawnTicketLine._redeem_item` (pawn_ticket_line.py, lines 384-430):
reject unless the (related) ticket state is redeemed or the line has no
product; skip and return the existing completed move back to the customer
location when there is one; otherwise issue a custody-to-customers move
and complete it. -/
def redeem_item (tstate : TicketState) (l : PawnTicketLine) :
    Except String (PawnTicketLine × StockMove) :=
  if tstate ≠ .redeemed then
    .error "Cannot redeem item that is not in redeemed state."
  else match l.product_id with
  | none => .error "No product associated with this item."
  | some _ =>
    match doneMovesTo l .customers with
    | e :: _ => .ok (l, e)
    | [] =>
      let m := mkDoneMove .custody .customers
      .ok ({ l with stock_move_ids := l.stock_move_ids ++ [m] }, m)

/-- Sequential `for line in ...: op(line)` over a list in the `Except`
error monad, keeping the updated lines; the first error aborts the whole
operation (the host transaction rolls back). -/
def mapExcept (f : PawnTicketLine → Except String PawnTicketLine) :
    List PawnTicketLine → Except String (List PawnTicketLine)
  | [] => .ok []
  | a :: as =>
    match f a with
    | .error e => .error e
    | .ok b =>
      match mapExcept f as with
      | .error e => .error e
      | .ok bs => .ok (b :: bs)

/-! ## Ticket workflow operations -/

/-- `PawnTicket.action_disburse` (pawn_ticket.py, lines 658-675): draft
only; stamps the pledge date, sets the state to pledged, then issues a
custody move per item line. (The disbursement timestamp and user are
bookkeeping on fields the claims do not touch.) -/
def action_disburse (today : Int) (t : PawnTicket) : Except String PawnTicket :=
  if t.state ≠ .draft then
    .error "Only draft tickets can be disbursed."
  else
    let t1 := { t with state := .pledged, date_pledged := some today }
    match mapExcept (fun l => Except.map Prod.fst (create_stock_move t1.state l))
        t1.line_ids with
    | .error e => .error e
    | .ok ls => .ok { t1 with line_ids := ls }

/-- `PawnTicket.action_cancel` (pawn_ticket.py, lines 731-736): draft
only. -/
def action_cancel (t : PawnTicket) : Except String PawnTicket :=
  if t.state ≠ .draft then
    .error "Only draft tickets can be cancelled."
  else .ok { t with state := .cancelled }

/-- `PawnTicket.action_forfeit` (pawn_ticket.py, lines 707-729): active
(pledged/renewed) only, must be overdue and past the grace period; on
success stamps the forfeit date, sets the state to forfeited and issues a
forfeit move per item line (the state is written before the moves, so
each line sees the forfeited state). -/
def action_forfeit (cfg : Config) (today : Int) (t : PawnTicket) :
    Except String PawnTicket :=
  if ¬ (t.state = .pledged ∨ t.state = .renewed) then
    .error "Only active tickets can be forfeited."
  else if is_overdue today t = false then
    .error "Cannot forfeit ticket that is not overdue."
  else if is_in_grace cfg today t = true then
    .error "Cannot forfeit during grace period."
  else
    let t1 := { t with state := .forfeited, date_forfeited := some today }
    match mapExcept (fun l => Except.map Prod.fst (forfeit_item t1.state l))
        t1.line_ids with
    | .error e => .error e
    | .ok ls => .ok { t1 with line_ids := ls }

/-- The fields of `pawn.renew.wizard` that `action_confirm` reads. -/
structure RenewWizard where
  new_maturity_date : Int
  interest_amount : Rat
  penalty_amount : Rat
  service_fee : Rat
deriving DecidableEq, Repr

/-- Invoice-line construction shared by the wizards: a nonzero amount
needs its configured product, otherwise a `UserError` is raised. -/
def requireProductIfNonzero (amount : Rat) (product : Option Nat)
    (msg : String) : Except String Unit :=
  if amount ≠ 0 ∧ product = none then .error msg else .ok ()

/-- `PawnRenewWizard.action_confirm` (renew_wizard.py, lines 40-77):
active (pledged/renewed) only; builds the renewal invoice (each nonzero
amount needs its configured product), then extends the maturity date and
sets the state to renewed. The invoice itself lives in the external
invoicing subsystem and is not tracked here. -/
def renew_confirm (cfg : Config) (w : RenewWizard) (t : PawnTicket) :
    Except String PawnTicket :=
  if ¬ (t.state = .pledged ∨ t.state = .renewed) then
    .error "Only active tickets can be renewed."
  else
    match requireProductIfNonzero w.interest_amount cfg.interest_product_id
        "Configure Interest Income Product in settings." with
    | .error e => .error e
    | .ok _ =>
    match requireProductIfNonzero w.penalty_amount cfg.penalty_product_id
        "Configure Penalty Product in settings." with
    | .error e => .error e
    | .ok _ =>
    match requireProductIfNonzero w.service_fee cfg.service_fee_product_id
        "Configure Service Fee Product in settings." with
    | .error e => .error e
    | .ok _ =>
      .ok { t with date_maturity := some w.new_maturity_date, state := .renewed }

/-- The fields of `pawn.redeem.wizard` that `action_confirm` reads. -/
structure RedeemWizard where
  principal_amount : Rat
  interest_amount : Rat
  penalty_amount : Rat
  service_fee : Rat
deriving DecidableEq, Repr

/-- `PawnRedeemWizard.action_confirm` (redeem_wizard.py, lines 43-123):
active (pledged/renewed) only; builds and posts the redemption invoice
(the principal line needs the service-fee product or, as fallback, the
interest product; each nonzero amount needs its product), then sets the
state to redeemed with the redemption date and releases each item line
back to the customer. Invoice posting and payment registration live in
the external accounting subsystem and are not tracked here. -/
def redeem_confirm (cfg : Config) (today : Int) (w : RedeemWizard)
    (t : PawnTicket) : Except String PawnTicket :=
  if ¬ (t.state = .pledged ∨ t.state = .renewed) then
    .error "Only active tickets can be redeemed."
  else if cfg.service_fee_product_id = none ∧ cfg.interest_product_id = none then
    .error "Configure at least one service product in settings to invoice principal."
  else
    match requireProductIfNonzero w.interest_amount cfg.interest_product_id
        "Configure Interest Income Product in settings." with
    | .error e => .error e
    | .ok _ =>
    match requireProductIfNonzero w.penalty_amount cfg.penalty_product_id
        "Configure Penalty Product in settings." with
    | .error e => .error e
    | .ok _ =>
    match requireProductIfNonzero w.service_fee cfg.service_fee_product_id
        "Configure Service Fee Product in settings." with
    | .error e => .error e
    | .ok _ =>
      let t1 := { t with state := .redeemed, date_redeemed := some today }
      match mapExcept (fun l => Except.map Prod.fst (redeem_item t1.state l))
          t1.line_ids with
      | .error e => .error e
      | .ok ls => .ok { t1 with line_ids := ls }

/-- The five state-changing operations the module exposes on a ticket. -/
inductive PawnOp
  | disburse (today : Int)
  | cancel
  | forfeit (today : Int)
  | renew (w : RenewWizard)
  | redeem (today : Int) (w : RedeemWizard)
deriving DecidableEq, Repr

/-- Dispatch of the exposed operations. -/
def applyOp (cfg : Config) : PawnOp → PawnTicket → Except String PawnTicket
  | .disburse today => action_disburse today
  | .cancel => action_cancel
  | .forfeit today => action_forfeit cfg today
  | .renew w => renew_confirm cfg w
  | .redeem today w => redeem_confirm cfg today w

/-! ## Rate-line overlap constraint -/

/-- The search domain of `_check_overlapping_ranges` (pawn_rate_table.py,
lines 251-256): same rate table (implicit here, the list is the table),
same category filter and same branch filter (unset compared as unset). -/
def sameFilterCombo (l r : RateLine) : Bool :=
  l.category_id == r.category_id && l.branch_id == r.branch_id

/-- The overlap test of `_check_overlapping_ranges` (lines 258-264):
`(not l.amount_to or l.amount_to >= record.amount_from) and
(not record.amount_to or record.amount_to >= l.amount_from)`. -/
def rangesOverlap (l record : RateLine) : Bool :=
  (match l.amount_to with
   | none => true
   | some hi => decide (record.amount_from ≤ hi)) &&
  (match record.amount_to with
   | none => true
   | some hi => decide (l.amount_from ≤ hi))

/-- `_check_overlapping_ranges` (pawn_rate_table.py, lines 247-270) for one
`record` against the other lines of its table: a `ValidationError` when
any line with the same category/branch combination overlaps. (The source
message also names the conflicting line; that display detail is dropped.) -/
def check_overlapping_ranges (others : List RateLine) (record : RateLine) :
    Except String Unit :=
  match (others.filter (fun l => sameFilterCombo l record)).filter
      (fun l => rangesOverlap l record) with
  | [] => .ok ()
  | _ :: _ =>
    .error "Amount ranges cannot overlap for the same category and branch combination."

/-- Membership of `x` in the closed amount range `[from, to]` of a line,
unbounded above when `amount_to` is unset — the range semantics of the
claim C8 as amended. -/
def inClosedRange (l : RateLine) (x : Rat) : Prop :=
  l.amount_from ≤ x ∧ ∀ hi, l.amount_to = some hi → x ≤ hi

/-- A line whose bounded range is non-degenerate, which the separate
constraint `_check_amount_range` (pawn_rate_table.py, lines 240-245)
guarantees for every saved line. -/
def wellFormedRange (l : RateLine) : Prop :=
  ∀ hi, l.amount_to = some hi → l.amount_from < hi

/-! ## Loan book / aging report -/

/-- The `WHERE pt.state IN ('active', 'renewed')` row filter of the
`pawn_loan_book_report` SQL view (pawn_loan_book_report.py, line 106),
applied to the stored state strings. -/
def loanBookSelects (t : PawnTicket) : Bool :=
  stateKey t.state == "active" || stateKey t.state == "renewed"

/-- The rows of the loan book report view for a given ticket population. -/
def loan_book_rows (ts : List PawnTicket) : List PawnTicket :=
  ts.filter loanBookSelects

/-- The `aging_bucket` CASE expression of the view (lines 91-102). A NULL
maturity date makes every comparison unknown, so it falls to the ELSE
branch. -/
def aging_bucket (cfg : Config) (today : Int) (t : PawnTicket) : String :=
  match t.date_maturity with
  | some m =>
    if m > today + 7 then "current"
    else if m > today then "due_soon"
    else if m = today then "matured"
    else if today - m ≤ cfg.grace_period_days then "grace"
    else "overdue"
  | none => "overdue"

/-- Row count of one bucket of `get_aging_summary` (lines 110-127), which
searches the view records by `aging_bucket`. -/
def aging_summary_count (cfg : Config) (today : Int) (ts : List PawnTicket)
    (bucket : String) : Nat :=
  ((loan_book_rows ts).filter
    (fun t => aging_bucket cfg today t == bucket)).length

/-! ## State machine statement apparatus (from the claim C2) -/

/-- Which ticket states permit each operation, per the transition table of
§4.2 of the spec. -/
def statePermits : PawnOp → TicketState → Prop
  | .disburse _, s => s = .draft
  | .cancel, s => s = .draft
  | .forfeit _, s => s = .pledged ∨ s = .renewed
  | .renew _, s => s = .pledged ∨ s = .renewed
  | .redeem _ _, s => s = .pledged ∨ s = .renewed

/-- The state change each operation is allowed to make, per the claim C2:
disburse draft-to-pledged, cancel draft-to-cancelled, renew and redeem
and forfeit from an active state. -/
def transitionOK : PawnOp → PawnTicket → PawnTicket → Prop
  | .disburse _, t, t2 => t.state = .draft ∧ t2.state = .pledged
  | .cancel, t, t2 => t.state = .draft ∧ t2.state = .cancelled
  | .forfeit _, t, t2 =>
    (t.state = .pledged ∨ t.state = .renewed) ∧ t2.state = .forfeited
  | .renew _, t, t2 =>
    (t.state = .pledged ∨ t.state = .renewed) ∧ t2.state = .renewed
  | .redeem _ _, t, t2 =>
    (t.state = .pledged ∨ t.state = .renewed) ∧ t2.state = .redeemed

/-! ## Helper lemmas -/

theorem mapExcept_forall {f : PawnTicketLine → Except String PawnTicketLine}
    {P : PawnTicketLine → Prop} (hf : ∀ a b, f a = .ok b → P b) :
    ∀ {xs ys}, mapExcept f xs = .ok ys → ∀ y ∈ ys, P y := by
  intro xs
  induction xs with
  | nil =>
    intro ys h y hy
    simp [mapExcept] at h
    subst h
    simp at hy
  | cons a as ih =>
    intro ys h y hy
    rw [mapExcept] at h
    cases hfa : f a with
    | error e => simp only [hfa] at h; simp at h
    | ok b =>
      simp only [hfa] at h
      cases hm : mapExcept f as with
      | error e => simp only [hm] at h; simp at h
      | ok bs =>
        simp only [hm] at h
        simp at h
        subst h
        rcases List.mem_cons.mp hy with hy | hy
        · exact hy ▸ hf a b hfa
        · exact ih hm y hy

theorem mem_doneMovesTo {l : PawnTicketLine} {dst : StockLocation}
    {m : StockMove} :
    m ∈ doneMovesTo l dst ↔
      m ∈ l.stock_move_ids ∧ m.location_dest_id = dst ∧ m.state = .done := by
  simp [doneMovesTo, List.mem_filter, and_assoc]

theorem create_stock_move_ok {ts : TicketState} {l l2 : PawnTicketLine}
    {mv : StockMove} (h : create_stock_move ts l = .ok (l2, mv)) :
    (ts = .draft ∨ ts = .pledged) ∧ l2.product_id ≠ none ∧
    mv ∈ l2.stock_move_ids ∧ mv.location_dest_id = .custody ∧
    mv.state = .done := by
  rw [create_stock_move] at h
  by_cases hts : ts = .draft ∨ ts = .pledged
  · rw [if_neg (not_not_intro hts)] at h
    refine ⟨hts, ?_⟩
    set l1 := if l.product_id = none then { l with product_id := some 0 } else l
      with hl1
    have hp1 : l1.product_id ≠ none := by
      rw [hl1]; split <;> simp_all
    cases hd : doneMovesTo l1 .custody with
    | nil =>
      simp only [hd] at h
      simp at h
      obtain ⟨h1, h2⟩ := h
      subst h1
      subst h2
      refine ⟨by simpa using hp1, by simp [mkDoneMove], rfl, rfl⟩
    | cons e rest =>
      simp only [hd] at h
      simp at h
      obtain ⟨h1, h2⟩ := h
      subst h1
      subst h2
      have he : e ∈ doneMovesTo l1 .custody := by rw [hd]; simp
      obtain ⟨hm, hdst, hst⟩ := mem_doneMovesTo.mp he
      exact ⟨hp1, hm, hdst, hst⟩
  · rw [if_pos hts] at h
    simp at h

theorem forfeit_item_ok {ts : TicketState} {l l2 : PawnTicketLine}
    {mv : StockMove} (h : forfeit_item ts l = .ok (l2, mv)) :
    ts = .forfeited ∧ l2.product_id ≠ none ∧ l2.product_id = l.product_id ∧
    mv ∈ l2.stock_move_ids ∧ mv.location_dest_id = .forfeitedInv ∧
    mv.state = .done := by
  rw [forfeit_item] at h
  by_cases hts : ts = .forfeited
  · rw [if_neg (not_not_intro hts)] at h
    refine ⟨hts, ?_⟩
    cases hp : l.product_id with
    | none => simp only [hp] at h; simp at h
    | some pid =>
      simp only [hp] at h
      cases hd : doneMovesTo l .forfeitedInv with
      | nil =>
        simp only [hd] at h
        simp at h
        obtain ⟨h1, h2⟩ := h
        subst h1
        subst h2
        exact ⟨by simp [hp], by simp [hp], by simp [mkDoneMove], rfl, rfl⟩
      | cons e rest =>
        simp only [hd] at h
        simp at h
        obtain ⟨h1, h2⟩ := h
        subst h1
        subst h2
        have he : e ∈ doneMovesTo l .forfeitedInv := by rw [hd]; simp
        obtain ⟨hm, hdst, hst⟩ := mem_doneMovesTo.mp he
        exact ⟨by simp [hp], hp, hm, hdst, hst⟩
  · rw [if_pos hts] at h
    simp at h

theorem redeem_item_ok {ts : TicketState} {l l2 : PawnTicketLine}
    {mv : StockMove} (h : redeem_item ts l = .ok (l2, mv)) :
    ts = .redeemed ∧ l2.product_id ≠ none ∧ l2.product_id = l.product_id ∧
    mv ∈ l2.stock_move_ids ∧ mv.location_dest_id = .customers ∧
    mv.state = .done := by
  rw [redeem_item] at h
  by_cases hts : ts = .redeemed
  · rw [if_neg (not_not_intro hts)] at h
    refine ⟨hts, ?_⟩
    cases hp : l.product_id with
    | none => simp only [hp] at h; simp at h
    | some pid =>
      simp only [hp] at h
      cases hd : doneMovesTo l .customers with
      | nil =>
        simp only [hd] at h
        simp at h
        obtain ⟨h1, h2⟩ := h
        subst h1
        subst h2
        exact ⟨by simp [hp], by simp [hp], by simp [mkDoneMove], rfl, rfl⟩
      | cons e rest =>
        simp only [hd] at h
        simp at h
        obtain ⟨h1, h2⟩ := h
        subst h1
        subst h2
        have he : e ∈ doneMovesTo l .customers := by rw [hd]; simp
        obtain ⟨hm, hdst, hst⟩ := mem_doneMovesTo.mp he
        exact ⟨by simp [hp], hp, hm, hdst, hst⟩
  · rw [if_pos hts] at h
    simp at h

theorem create_stock_move_idem {ts : TicketState} {l l2 : PawnTicketLine}
    {mv : StockMove} (h : create_stock_move ts l = .ok (l2, mv)) :
    ∃ m2, create_stock_move ts l2 = .ok (l2, m2) ∧ m2 ∈ l2.stock_move_ids ∧
      m2.location_dest_id = .custody ∧ m2.state = .done := by
  obtain ⟨hts, hp, hmem, hdst, hst⟩ := create_stock_move_ok h
  cases hd : doneMovesTo l2 .custody with
  | nil =>
    exfalso
    have : mv ∈ doneMovesTo l2 .custody := mem_doneMovesTo.mpr ⟨hmem, hdst, hst⟩
    rw [hd] at this
    simp at this
  | cons e rest =>
    have he : e ∈ doneMovesTo l2 .custody := by rw [hd]; simp
    obtain ⟨hm2, hd2, hs2⟩ := mem_doneMovesTo.mp he
    refine ⟨e, ?_, hm2, hd2, hs2⟩
    rw [create_stock_move, if_neg (not_not_intro hts), if_neg hp]
    simp [hd]

theorem forfeit_item_idem {ts : TicketState} {l l2 : PawnTicketLine}
    {mv : StockMove} (h : forfeit_item ts l = .ok (l2, mv)) :
    ∃ m2, forfeit_item ts l2 = .ok (l2, m2) ∧ m2 ∈ l2.stock_move_ids ∧
      m2.location_dest_id = .forfeitedInv ∧ m2.state = .done := by
  obtain ⟨hts, hp, _, hmem, hdst, hst⟩ := forfeit_item_ok h
  cases hd : doneMovesTo l2 .forfeitedInv with
  | nil =>
    exfalso
    have : mv ∈ doneMovesTo l2 .forfeitedInv := mem_doneMovesTo.mpr ⟨hmem, hdst, hst⟩
    rw [hd] at this
    simp at this
  | cons e rest =>
    have he : e ∈ doneMovesTo l2 .forfeitedInv := by rw [hd]; simp
    obtain ⟨hm2, hd2, hs2⟩ := mem_doneMovesTo.mp he
    refine ⟨e, ?_, hm2, hd2, hs2⟩
    obtain ⟨pid, hp2⟩ := Option.ne_none_iff_exists'.mp hp
    rw [forfeit_item, if_neg (not_not_intro hts), hp2]
    simp [hd]

theorem redeem_item_idem {ts : TicketState} {l l2 : PawnTicketLine}
    {mv : StockMove} (h : redeem_item ts l = .ok (l2, mv)) :
    ∃ m2, redeem_item ts l2 = .ok (l2, m2) ∧ m2 ∈ l2.stock_move_ids ∧
      m2.location_dest_id = .customers ∧ m2.state = .done := by
  obtain ⟨hts, hp, _, hmem, hdst, hst⟩ := redeem_item_ok h
  cases hd : doneMovesTo l2 .customers with
  | nil =>
    exfalso
    have : mv ∈ doneMovesTo l2 .customers := mem_doneMovesTo.mpr ⟨hmem, hdst, hst⟩
    rw [hd] at this
    simp at this
  | cons e rest =>
    have he : e ∈ doneMovesTo l2 .customers := by rw [hd]; simp
    obtain ⟨hm2, hd2, hs2⟩ := mem_doneMovesTo.mp he
    refine ⟨e, ?_, hm2, hd2, hs2⟩
    obtain ⟨pid, hp2⟩ := Option.ne_none_iff_exists'.mp hp
    rw [redeem_item, if_neg (not_not_intro hts), hp2]
    simp [hd]

theorem exceptMap_fst_ok {x : Except String (PawnTicketLine × StockMove)}
    {b : PawnTicketLine} (h : Except.map Prod.fst x = .ok b) :
    ∃ mv, x = .ok (b, mv) := by
  cases x with
  | error e => simp [Except.map] at h
  | ok pr =>
    obtain ⟨l2, mv⟩ := pr
    simp [Except.map] at h
    exact ⟨mv, by rw [h]⟩

theorem is_overdue_active {today : Int} {t : PawnTicket}
    (hs : t.state = .pledged ∨ t.state = .renewed)
    (h : is_overdue today t = true) :
    ∃ m, t.date_maturity = some m ∧ m < today := by
  rw [is_overdue] at h
  rcases hs with hs | hs <;>
    (rw [hs] at h
     simp at h
     cases hm2 : t.date_maturity with
     | none => rw [hm2] at h; simp at h
     | some m =>
       rw [hm2] at h
       simp at h
       exact ⟨m, rfl, h⟩)

/-- C2: every pawn ticket state is one of the six declared values, every
state change reachable through the five exposed operations (disburse,
cancel, forfeit, renew-wizard confirm, redeem-wizard confirm) follows the
transition table — draft to pledged, draft to cancelled, and active
(pledged/renewed) to renewed / redeemed / forfeited — and an operation
invoked from a state that does not permit it raises an error; in the pure
embedding an error returns no new ticket, i.e. the state is unchanged
(the host transaction rolls back). -/
theorem ticket_state_machine (cfg : Config) (op : PawnOp) (t : PawnTicket) :
    (t.state = .draft ∨ t.state = .pledged ∨ t.state = .renewed ∨
     t.state = .redeemed ∨ t.state = .forfeited ∨ t.state = .cancelled) ∧
    (∀ t2, applyOp cfg op t = .ok t2 → transitionOK op t t2) ∧
    (¬ statePermits op t.state → ∃ e, applyOp cfg op t = .error e) := by
  refine ⟨by cases h : t.state <;> simp [h], ?_, ?_⟩
  · intro t2 h
    cases op with
    | disburse today =>
      simp only [applyOp, action_disburse] at h
      by_cases hs : t.state = .draft
      · rw [if_neg (not_not_intro hs)] at h
        split at h
        · simp at h
        · simp at h
          exact ⟨hs, by rw [← h]⟩
      · rw [if_pos hs] at h
        simp at h
    | cancel =>
      simp only [applyOp, action_cancel] at h
      by_cases hs : t.state = .draft
      · rw [if_neg (not_not_intro hs)] at h
        simp at h
        exact ⟨hs, by rw [← h]⟩
      · rw [if_pos hs] at h
        simp at h
    | forfeit today =>
      simp only [applyOp, action_forfeit] at h
      by_cases hs : t.state = .pledged ∨ t.state = .renewed
      · rw [if_neg (not_not_intro hs)] at h
        split at h
        · simp at h
        · split at h
          · simp at h
          · split at h
            · simp at h
            · simp at h
              exact ⟨hs, by rw [← h]⟩
      · rw [if_pos hs] at h
        simp at h
    | renew w =>
      simp only [applyOp, renew_confirm] at h
      by_cases hs : t.state = .pledged ∨ t.state = .renewed
      · rw [if_neg (not_not_intro hs)] at h
        split at h
        · simp at h
        · split at h
          · simp at h
          · split at h
            · simp at h
            · simp at h
              exact ⟨hs, by rw [← h]⟩
      · rw [if_pos hs] at h
        simp at h
    | redeem today w =>
      simp only [applyOp, redeem_confirm] at h
      by_cases hs : t.state = .pledged ∨ t.state = .renewed
      · rw [if_neg (not_not_intro hs)] at h
        split at h
        · simp at h
        · split at h
          · simp at h
          · split at h
            · simp at h
            · split at h
              · simp at h
              · split at h
                · simp at h
                · simp at h
                  exact ⟨hs, by rw [← h]⟩
      · rw [if_pos hs] at h
        simp at h
  · intro hnp
    cases op with
    | disburse today =>
      refine ⟨"Only draft tickets can be disbursed.", ?_⟩
      have hnp2 : t.state ≠ TicketState.draft := hnp
      simp only [applyOp, action_disburse]
      rw [if_pos hnp2]
    | cancel =>
      refine ⟨"Only draft tickets can be cancelled.", ?_⟩
      have hnp2 : t.state ≠ TicketState.draft := hnp
      simp only [applyOp, action_cancel]
      rw [if_pos hnp2]
    | forfeit today =>
      refine ⟨"Only active tickets can be forfeited.", ?_⟩
      have hnp2 : ¬ (t.state = TicketState.pledged ∨ t.state = TicketState.renewed) := hnp
      simp only [applyOp, action_forfeit]
      rw [if_pos hnp2]
    | renew w =>
      refine ⟨"Only active tickets can be renewed.", ?_⟩
      have hnp2 : ¬ (t.state = TicketState.pledged ∨ t.state = TicketState.renewed) := hnp
      simp only [applyOp, renew_confirm]
      rw [if_pos hnp2]
    | redeem today w =>
      refine ⟨"Only active tickets can be redeemed.", ?_⟩
      have hnp2 : ¬ (t.state = TicketState.pledged ∨ t.state = TicketState.renewed) := hnp
      simp only [applyOp, redeem_confirm]
      rw [if_pos hnp2]

/-- C3: `action_forfeit` succeeds only from pledged/renewed with the
ticket overdue (maturity strictly before today) and past the grace
period; each violated precondition raises the error naming it (and, the
embedding being pure, no field changes on error). On success the state
becomes forfeited, `date_forfeited` is stamped with today, and every item
line carries a completed move into forfeited inventory. -/
theorem forfeit_rules (cfg : Config) (today : Int) (t : PawnTicket) :
    (¬ (t.state = .pledged ∨ t.state = .renewed) →
      action_forfeit cfg today t = .error "Only active tickets can be forfeited.") ∧
    ((t.state = .pledged ∨ t.state = .renewed) → is_overdue today t = false →
      action_forfeit cfg today t =
        .error "Cannot forfeit ticket that is not overdue.") ∧
    ((t.state = .pledged ∨ t.state = .renewed) → is_overdue today t = true →
      is_in_grace cfg today t = true →
      action_forfeit cfg today t = .error "Cannot forfeit during grace period.") ∧
    (∀ t2, action_forfeit cfg today t = .ok t2 →
      (t.state = .pledged ∨ t.state = .renewed) ∧ is_overdue today t = true ∧
      is_in_grace cfg today t = false ∧
      (∃ m, t.date_maturity = some m ∧ m < today) ∧
      t2.state = .forfeited ∧ t2.date_forfeited = some today ∧
      ∀ l ∈ t2.line_ids, ∃ mv ∈ l.stock_move_ids,
        mv.location_dest_id = .forfeitedInv ∧ mv.state = .done) := by
  refine ⟨?_, ?_, ?_, ?_⟩
  · intro hns
    rw [action_forfeit, if_pos hns]
  · intro hs hov
    rw [action_forfeit, if_neg (not_not_intro hs), if_pos hov]
  · intro hs hov hg
    rw [action_forfeit, if_neg (not_not_intro hs),
      if_neg (by simp [hov]), if_pos hg]
  · intro t2 h
    simp only [action_forfeit] at h
    by_cases hs : t.state = .pledged ∨ t.state = .renewed
    · rw [if_neg (not_not_intro hs)] at h
      by_cases hov : is_overdue today t = false
      · rw [if_pos hov] at h
        simp at h
      · rw [if_neg hov] at h
        have hov2 : is_overdue today t = true := by simpa using hov
        by_cases hg : is_in_grace cfg today t = true
        · rw [if_pos hg] at h
          simp at h
        · rw [if_neg hg] at h
          have hg2 : is_in_grace cfg today t = false := by simpa using hg
          refine ⟨hs, hov2, hg2, is_overdue_active hs hov2, ?_⟩
          split at h
          · simp at h
          · rename_i ls hm
            simp at h
            refine ⟨by rw [← h], by rw [← h], ?_⟩
            intro l hl
            rw [← h] at hl
            simp at hl
            exact @mapExcept_forall _
              (fun b => ∃ mv ∈ b.stock_move_ids,
                mv.location_dest_id = StockLocation.forfeitedInv ∧
                mv.state = MoveState.done)
              (fun a b hab => by
                obtain ⟨mv, hx⟩ := exceptMap_fst_ok hab
                obtain ⟨_, _, _, hmem, hdst, hst⟩ := forfeit_item_ok hx
                exact ⟨mv, hmem, hdst, hst⟩) _ _ hm l hl
    · rw [if_pos hs] at h
      simp at h

/-- C9: the custody-move, forfeit-move and release-move operations are
idempotent: once a call has succeeded on a line, calling the same
operation again on the resulting line changes nothing — it finds the
already-completed move to the same destination among the line moves and
returns it instead of creating a new one. -/
theorem stock_ops_idempotent (ts : TicketState) (l l2 : PawnTicketLine)
    (mv : StockMove) :
    (create_stock_move ts l = .ok (l2, mv) →
      ∃ m2, create_stock_move ts l2 = .ok (l2, m2) ∧
        m2 ∈ l2.stock_move_ids ∧ m2.location_dest_id = .custody ∧
        m2.state = .done) ∧
    (forfeit_item ts l = .ok (l2, mv) →
      ∃ m2, forfeit_item ts l2 = .ok (l2, m2) ∧
        m2 ∈ l2.stock_move_ids ∧ m2.location_dest_id = .forfeitedInv ∧
        m2.state = .done) ∧
    (redeem_item ts l = .ok (l2, mv) →
      ∃ m2, redeem_item ts l2 = .ok (l2, m2) ∧
        m2 ∈ l2.stock_move_ids ∧ m2.location_dest_id = .customers ∧
        m2.state = .done) :=
  ⟨fun h => create_stock_move_idem h, fun h => forfeit_item_idem h,
   fun h => redeem_item_idem h⟩

/-- The configuration with every parameter at its declared default. -/
def defaultConfig : Config := {}

theorem is_overdue_not_dc {today : Int} {t : PawnTicket}
    (h : is_overdue today t = true) :
    ¬ (t.state = .draft ∨ t.state = .cancelled) := by
  intro hdc
  rw [is_overdue, if_pos hdc] at h
  simp at h

/-- C4: interest is 0 for draft/cancelled tickets and when the pledge or
maturity date is unset, and otherwise equals
`principal * (rate/100) * (days(pledge, maturity)/30)`; penalty is 0
unless the ticket is overdue, and otherwise equals
`principal * (penalty_rate/100) * (days_overdue/30)` — both on a flat
30-day month, the day counts being plain date differences. -/
theorem interest_penalty_formulas (cfg : Config) (today : Int) (t : PawnTicket) :
    ((t.state = .draft ∨ t.state = .cancelled ∨ t.date_pledged = none ∨
        t.date_maturity = none) → interest_amount t = 0) ∧
    (¬ (t.state = .draft ∨ t.state = .cancelled) →
      ∀ p m, t.date_pledged = some p → t.date_maturity = some m →
        interest_amount t =
          t.principal_amount * (t.interest_rate / 100) *
            (((m - p : Int) : Rat) / 30)) ∧
    (is_overdue today t = false → penalty_amount cfg today t = 0) ∧
    (is_overdue today t = true → ∀ m, t.date_maturity = some m →
      penalty_amount cfg today t =
        t.principal_amount * (cfg.penalty_rate_percent / 100) *
          (((today - m : Int) : Rat) / 30)) := by
  refine ⟨?_, ?_, ?_, ?_⟩
  · intro h
    by_cases hdc : t.state = .draft ∨ t.state = .cancelled
    · rw [interest_amount, if_pos hdc]
    · rcases h with h | h | h | h
      · exact absurd (Or.inl h) hdc
      · exact absurd (Or.inr h) hdc
      · cases hmm : t.date_maturity <;>
          simp [interest_amount, hdc, h, hmm]
      · cases hp : t.date_pledged <;>
          simp [interest_amount, hdc, h, hp]
  · intro hndc p m hp hm
    simp [interest_amount, hndc, hp, hm]
  · intro hov
    simp [penalty_amount, hov]
  · intro hov m hm
    simp [penalty_amount, is_overdue_not_dc hov, hov, hm]

/-- C5: `total_due` is 0 for redeemed/forfeited/cancelled tickets and
principal + interest + penalty + service fee otherwise; a successful
redeem-wizard confirmation on an active ticket sets the state to
redeemed — after which `total_due` is 0 — and every item line carries a
completed release move back to the customer location. -/
theorem total_due_rules (cfg : Config) (today : Int) (t : PawnTicket) :
    ((t.state = .redeemed ∨ t.state = .forfeited ∨ t.state = .cancelled) →
      total_due cfg today t = 0) ∧
    (¬ (t.state = .redeemed ∨ t.state = .forfeited ∨ t.state = .cancelled) →
      total_due cfg today t =
        t.principal_amount + interest_amount t + penalty_amount cfg today t +
          service_fee cfg t) ∧
    (∀ w t2, redeem_confirm cfg today w t = .ok t2 →
      t2.state = .redeemed ∧ total_due cfg today t2 = 0 ∧
      ∀ l ∈ t2.line_ids, ∃ mv ∈ l.stock_move_ids,
        mv.location_dest_id = .customers ∧ mv.state = .done) := by
  refine ⟨fun h => by rw [total_due, if_pos h],
    fun h => by rw [total_due, if_neg h], ?_⟩
  intro w t2 h
  simp only [redeem_confirm] at h
  by_cases hs : t.state = .pledged ∨ t.state = .renewed
  · rw [if_neg (not_not_intro hs)] at h
    split at h
    · simp at h
    · split at h
      · simp at h
      · split at h
        · simp at h
        · split at h
          · simp at h
          · split at h
            · simp at h
            · rename_i ls hm
              simp at h
              have hstate : t2.state = .redeemed := by rw [← h]
              refine ⟨hstate, by rw [total_due, if_pos (Or.inl hstate)], ?_⟩
              intro l hl
              rw [← h] at hl
              simp at hl
              exact @mapExcept_forall _
                (fun b => ∃ mv ∈ b.stock_move_ids,
                  mv.location_dest_id = StockLocation.customers ∧
                  mv.state = MoveState.done)
                (fun a b hab => by
                  obtain ⟨mv, hx⟩ := exceptMap_fst_ok hab
                  obtain ⟨_, _, _, hmem, hdst, hst⟩ := redeem_item_ok hx
                  exact ⟨mv, hmem, hdst, hst⟩) _ _ hm l hl
  · rw [if_pos hs] at h
    simp at h

/-- C6: the LTV ratio is `principal / appraised * 100` whenever the
appraised value is positive and 0 otherwise (no division by zero is ever
attempted), and the save-time constraint errors exactly when the ratio
exceeds the configured maximum, whose default is 80. -/
theorem ltv_rules (cfg : Config) (t : PawnTicket) :
    (appraised_value t > 0 →
      compute_ltv t = t.principal_amount / appraised_value t * 100) ∧
    (¬ appraised_value t > 0 → compute_ltv t = 0) ∧
    (compute_ltv t > cfg.max_ltv → ∃ e, check_ltv cfg t = .error e) ∧
    (¬ compute_ltv t > cfg.max_ltv → check_ltv cfg t = .ok ()) ∧
    defaultConfig.max_ltv = 80 := by
  refine ⟨fun h => by rw [compute_ltv, if_pos h],
    fun h => by rw [compute_ltv, if_neg h],
    fun h => ⟨_, by rw [check_ltv, if_pos h]⟩,
    fun h => by rw [check_ltv, if_neg h], rfl⟩

/-- A pledged ticket with the given maturity date, used for the concrete
aging scenarios of the claims. -/
def agingTicket (m : Int) : PawnTicket :=
  { state := .pledged, principal_amount := 1000, interest_rate := 3,
    date_pledged := some (m - 30), date_maturity := some m, line_ids := [] }

/-- C7: for active tickets with a maturity date, due-today holds iff the
maturity is today, overdue iff it is strictly before today, and in-grace
iff overdue with `maturity + grace_days >= today` (the grace end being
maturity plus the configured grace days); the four excluded states have
all three flags false. With the default 7 grace days, maturity three days
ago is overdue and in grace, maturity ten days ago is overdue and out of
grace. -/
theorem status_indicator_rules (cfg : Config) (today : Int) (t : PawnTicket) :
    ((t.state = .draft ∨ t.state = .cancelled ∨ t.state = .redeemed ∨
        t.state = .forfeited) →
      is_due_today today t = false ∧ is_overdue today t = false ∧
      is_in_grace cfg today t = false) ∧
    ((t.state = .pledged ∨ t.state = .renewed) →
      ∀ m, t.date_maturity = some m →
        (is_due_today today t = true ↔ m = today) ∧
        (is_overdue today t = true ↔ m < today) ∧
        (is_in_grace cfg today t = true ↔
          m < today ∧ m + cfg.grace_period_days ≥ today)) ∧
    (date_grace_end cfg t =
      t.date_maturity.map (fun m => m + cfg.grace_period_days)) ∧
    (∀ d : Int,
      is_overdue d (agingTicket (d - 3)) = true ∧
      is_in_grace defaultConfig d (agingTicket (d - 3)) = true ∧
      is_overdue d (agingTicket (d - 10)) = true ∧
      is_in_grace defaultConfig d (agingTicket (d - 10)) = false) := by
  refine ⟨?_, ?_, ?_, ?_⟩
  · intro h
    rcases h with h | h | h | h <;>
      simp [is_due_today, is_overdue, is_in_grace, h]
  · intro hs m hm
    rcases hs with hs | hs <;>
      simp [is_due_today, is_overdue, is_in_grace, date_grace_end, hs, hm]
  · rw [date_grace_end]
    cases hm : t.date_maturity <;> simp [hm]
  · intro d
    refine ⟨?_, ?_, ?_, ?_⟩ <;>
      simp [is_overdue, is_in_grace, date_grace_end, agingTicket,
        defaultConfig] <;>
      omega

/-- C10: `'active'` is not among the stored ticket states, so the loan
book view row filter `state IN ('active','renewed')` selects exactly the
renewed tickets: a pledged ticket appears neither among the report rows
nor in any bucket of the aging summary, whose counts range over renewed
tickets only. -/
theorem loan_book_excludes_pledged (cfg : Config) (today : Int)
    (ts : List PawnTicket) (t : PawnTicket) (b : String) :
    (∀ s : TicketState, stateKey s ≠ "active") ∧
    (loanBookSelects t = (t.state == TicketState.renewed)) ∧
    (t.state = .pledged → t ∉ loan_book_rows ts) ∧
    (aging_summary_count cfg today ts b =
      ((ts.filter (fun x => x.state == TicketState.renewed)).filter
        (fun x => aging_bucket cfg today x == b)).length) := by
  have hsel : ∀ x : PawnTicket,
      loanBookSelects x = (x.state == TicketState.renewed) := by
    intro x
    cases hxs : x.state <;> simp [loanBookSelects, stateKey, hxs]
  refine ⟨?_, hsel t, ?_, ?_⟩
  · intro s; cases s <;> simp [stateKey]
  · intro h hmem
    rw [loan_book_rows, List.mem_filter] at hmem
    have h2 := hmem.2
    rw [hsel t, h] at h2
    simp at h2
  · have hfil : ts.filter loanBookSelects =
        ts.filter (fun x => x.state == TicketState.renewed) :=
      List.filter_congr (fun x _ => hsel x)
    rw [aging_summary_count, loan_book_rows, hfil]

/-- `lineMatches` (from the source) and `specLineMatches` (from the
amended claim wording) coincide. -/
theorem lineMatches_eq_spec (l : RateLine) (amount : Rat)
    (cat br : Option Nat) :
    lineMatches l amount cat br = specLineMatches l amount cat br := rfl

/-- The generic 0-10000 tier at 2 percent. -/
def lowTier : RateLine :=
  { category_id := none, branch_id := none, amount_from := 0,
    amount_to := some 10000, rate_percent := 2 }

/-- The generic 10000-and-up tier at 1.5 percent. -/
def highTier : RateLine :=
  { category_id := none, branch_id := none, amount_from := 10000,
    amount_to := none, rate_percent := mkRat 3 2 }

/-- A 0-10000 tier at 1 percent restricted to category 1. -/
def catTier : RateLine :=
  { category_id := some 1, branch_id := none, amount_from := 0,
    amount_to := some 10000, rate_percent := 1 }

/-- The two-tier table of the claim examples, valid from day 0 onward. -/
def tierTable : RateTable :=
  { date_from := 0, date_to := none, line_ids := [lowTier, highTier] }

/-- A table holding a generic tier and a category-specific tier over the
same amount range. -/
def tierTableCat : RateTable :=
  { date_from := 0, date_to := none, line_ids := [lowTier, catTier] }

/-- A table holding only the bounded 0-10000 tier. -/
def singleTierTable : RateTable :=
  { date_from := 0, date_to := none, line_ids := [lowTier] }

/-- C1 (amended): `get_applicable_rate` fails exactly when the table is
outside its validity window or no line matches, a line matching iff
`amount_from <= amount <= amount_to` (inclusive upper bound, unbounded
when unset) with each category/branch filter unset or equal to the given
one; a returned rate is the `rate_percent` of a matching line of maximal
specificity, category filters weighing more than branch filters; and on
the concrete tiers, 5000 resolves to 2, 15000 to 1.5, and a
category-specific tier beats a generic one over the same range. -/
theorem rate_resolution (tbl : RateTable) (amount : Rat)
    (cat br : Option Nat) (d : Int) :
    (get_applicable_rate tbl amount cat br d = none ↔
      outsideValidity tbl d = true ∨
      ∀ l ∈ tbl.line_ids, specLineMatches l amount cat br = false) ∧
    (∀ r, get_applicable_rate tbl amount cat br d = some r →
      ∃ l ∈ tbl.line_ids, specLineMatches l amount cat br = true ∧
        r = l.rate_percent ∧
        ∀ l2 ∈ tbl.line_ids, specLineMatches l2 amount cat br = true →
          specKey l2 ≤ specKey l) ∧
    (get_applicable_rate tierTable 5000 none none 0 = some 2) ∧
    (get_applicable_rate tierTable 15000 none none 0 = some (mkRat 3 2)) ∧
    (get_applicable_rate tierTableCat 5000 (some 1) none 0 = some 1) := by
  refine ⟨?_, ?_, by decide, by decide, by decide⟩
  · simp only [get_applicable_rate]
    by_cases hv : outsideValidity tbl d
    · rw [if_pos hv]
      simp [hv]
    · rw [if_neg hv]
      constructor
      · intro h
        right
        cases hm : argmaxFirst
            (tbl.line_ids.filter fun l => lineMatches l amount cat br) with
        | some m => rw [hm] at h; simp at h
        | none =>
          have hnil := argmaxFirst_eq_none.mp hm
          intro l hl
          by_contra hmt
          have hlf : l ∈ tbl.line_ids.filter
              (fun l => lineMatches l amount cat br) := by
            rw [List.mem_filter]
            refine ⟨hl, ?_⟩
            rw [lineMatches_eq_spec]
            simpa using hmt
          rw [hnil] at hlf
          simp at hlf
      · intro h
        rcases h with h | h
        · exact absurd h hv
        · have hnil : tbl.line_ids.filter
              (fun l => lineMatches l amount cat br) = [] := by
            rw [List.filter_eq_nil_iff]
            intro a ha
            rw [lineMatches_eq_spec]
            simp [h a ha]
          rw [hnil]
          simp [argmaxFirst]
  · intro r h
    simp only [get_applicable_rate] at h
    by_cases hv : outsideValidity tbl d
    · rw [if_pos hv] at h
      simp at h
    · rw [if_neg hv] at h
      cases hm : argmaxFirst
          (tbl.line_ids.filter fun l => lineMatches l amount cat br) with
      | none => rw [hm] at h; simp at h
      | some l =>
        rw [hm] at h
        simp at h
        have hlmem := argmaxFirst_mem hm
        rw [List.mem_filter] at hlmem
        refine ⟨l, hlmem.1, ?_, h.symm, ?_⟩
        · rw [← lineMatches_eq_spec]
          exact hlmem.2
        · intro l2 hl2 hm2
          apply argmaxFirst_maximal hm
          rw [List.mem_filter]
          refine ⟨hl2, ?_⟩
          rw [lineMatches_eq_spec]
          exact hm2

/-- C1 counterexample: at amount exactly 10000 no line of the
single-tier table matches under the frozen claim's strict upper bound
`amount < amount_to`, so the claim requires failure; the code matches the
upper bound inclusively and returns the 2 percent rate. -/
theorem rate_resolution_boundary_cex :
    (∀ l ∈ singleTierTable.line_ids,
      specLineMatchesStrict l 10000 none none = false) ∧
    get_applicable_rate singleTierTable 10000 none none 0 = some 2 := by
  constructor
  · decide
  · decide

/-- For non-degenerate ranges, the overlap test of the source is exactly
non-empty intersection of the closed ranges. -/
theorem rangesOverlap_iff {l r : RateLine} (hl : wellFormedRange l)
    (hr : wellFormedRange r) :
    rangesOverlap l r = true ↔
      ∃ x, inClosedRange l x ∧ inClosedRange r x := by
  rw [rangesOverlap]
  constructor
  · intro h
    rw [Bool.and_eq_true] at h
    obtain ⟨h1, h2⟩ := h
    refine ⟨max l.amount_from r.amount_from,
      ⟨le_max_left _ _, ?_⟩, ⟨le_max_right _ _, ?_⟩⟩
    · intro hi hhi
      rw [hhi] at h1
      simp at h1
      exact max_le (le_of_lt (hl hi hhi)) h1
    · intro hi hhi
      rw [hhi] at h2
      simp at h2
      exact max_le h2 (le_of_lt (hr hi hhi))
  · intro h
    obtain ⟨x, ⟨hl1, hl2⟩, ⟨hr1, hr2⟩⟩ := h
    rw [Bool.and_eq_true]
    constructor
    · cases hto : l.amount_to with
      | none => simp
      | some hi =>
        simp
        exact le_trans hr1 (hl2 hi hto)
    · cases hto : r.amount_to with
      | none => simp
      | some hi =>
        simp
        exact le_trans hl1 (hr2 hi hto)

/-- C8 (amended): within one table, the save-time constraint rejects a
line exactly when another line with the same category filter and the same
branch filter has a closed amount range `[from, to]` (unbounded when `to`
is unset) sharing at least one point with the new line's closed range;
in particular two tiers meeting at a boundary (0-10000 and 10000-up)
share the point 10000 and the second is rejected. -/
theorem overlap_check_rules (others : List RateLine) (record : RateLine)
    (hwf : ∀ l ∈ others, wellFormedRange l) (hwr : wellFormedRange record) :
    ((∃ e, check_overlapping_ranges others record = .error e) ↔
      ∃ l ∈ others, l.category_id = record.category_id ∧
        l.branch_id = record.branch_id ∧
        ∃ x, inClosedRange l x ∧ inClosedRange record x) ∧
    check_overlapping_ranges [lowTier] highTier =
      .error "Amount ranges cannot overlap for the same category and branch combination." := by
  constructor
  · constructor
    · intro h
      obtain ⟨e, he⟩ := h
      rw [check_overlapping_ranges] at he
      cases hf : (others.filter (fun l => sameFilterCombo l record)).filter
          (fun l => rangesOverlap l record) with
      | nil => rw [hf] at he; simp at he
      | cons a rest =>
        have ha : a ∈ (others.filter (fun l => sameFilterCombo l record)).filter
            (fun l => rangesOverlap l record) := by rw [hf]; simp
        rw [List.mem_filter] at ha
        obtain ⟨ha1, ha2⟩ := ha
        rw [List.mem_filter] at ha1
        obtain ⟨hmem, hcombo⟩ := ha1
        rw [sameFilterCombo, Bool.and_eq_true] at hcombo
        simp at hcombo
        exact ⟨a, hmem, hcombo.1, hcombo.2,
          (rangesOverlap_iff (hwf a hmem) hwr).mp ha2⟩
    · intro h
      obtain ⟨l, hmem, hcat, hbr, hx⟩ := h
      rw [check_overlapping_ranges]
      cases hf : (others.filter (fun l => sameFilterCombo l record)).filter
          (fun l => rangesOverlap l record) with
      | nil =>
        exfalso
        have hin : l ∈ (others.filter (fun l => sameFilterCombo l record)).filter
            (fun l => rangesOverlap l record) := by
          rw [List.mem_filter]
          refine ⟨?_, (rangesOverlap_iff (hwf l hmem) hwr).mpr hx⟩
          rw [List.mem_filter]
          refine ⟨hmem, ?_⟩
          rw [sameFilterCombo, Bool.and_eq_true]
          simp [hcat, hbr]
        rw [hf] at hin
        simp at hin
      | cons a rest => exact ⟨_, rfl⟩
  · rfl

/-- C8 counterexample: the claim says the boundary-meeting tiers 0-10000
and 10000-up are overlap-free and both accepted; the code's overlap test
treats the ranges as closed and rejects the second tier with a validation
error. -/
theorem overlap_boundary_cex :
    check_overlapping_ranges [lowTier] highTier ≠ .ok () ∧
    (∃ e, check_overlapping_ranges [lowTier] highTier = .error e) := by
  have h : check_overlapping_ranges [lowTier] highTier =
      .error "Amount ranges cannot overlap for the same category and branch combination." :=
    rfl
  exact ⟨by simp [h], ⟨_, h⟩⟩

/-! ## Concrete records for the witnesses -/

/-- A draft ticket with one appraised item. -/
def draftTicket : PawnTicket :=
  { state := .draft, principal_amount := 1000, interest_rate := 3,
    date_pledged := none, date_maturity := some 30,
    line_ids := [
      { product_id := none, appraised_value := 2000,
        stock_move_ids := [] } ] }

/-- A pledged ticket, matured on day 30 and well past grace by day 100,
whose item is in custody. -/
def overdueTicket : PawnTicket :=
  { state := .pledged, principal_amount := 1000, interest_rate := 3,
    date_pledged := some 0, date_maturity := some 30,
    line_ids := [
      { product_id := some 5, appraised_value := 2000,
        stock_move_ids := [mkDoneMove .customers .custody] } ] }

/-- A configuration with all three invoice products configured. -/
def prodConfig : Config :=
  { interest_product_id := some 1, penalty_product_id := some 2,
    service_fee_product_id := some 3 }

/-- The redeem-wizard values used by the witness. -/
def redeemWiz : RedeemWizard :=
  { principal_amount := 1000, interest_amount := 30, penalty_amount := 0,
    service_fee := 10 }

/-- The ticket produced by confirming the redeem wizard on
`overdueTicket` on day 100. -/
def redeemedResult : PawnTicket :=
  { state := .redeemed, principal_amount := 1000, interest_rate := 3,
    date_pledged := some 0, date_maturity := some 30,
    date_redeemed := some 100,
    line_ids := [
      { product_id := some 5, appraised_value := 2000,
        stock_move_ids := [mkDoneMove .customers .custody,
          mkDoneMove .custody .customers] } ] }

/-- A line not yet in custody. -/
def freshLine : PawnTicketLine :=
  { product_id := none, appraised_value := 2000, stock_move_ids := [] }

/-- `freshLine` after its custody move: tracking product assigned, one
completed customers-to-custody move. -/
def custodyLine : PawnTicketLine :=
  { product_id := some 0, appraised_value := 2000,
    stock_move_ids := [mkDoneMove .customers .custody] }

theorem lowTier_wf : wellFormedRange lowTier := by
  intro hi hhi
  simp [lowTier] at hhi
  subst hhi
  norm_num [lowTier]

theorem highTier_wf : wellFormedRange highTier := by
  intro hi hhi
  simp [highTier] at hhi

/-! ## Witnesses -/

/-- Witness for C1: the 2 percent rate returned at 5000 really is the
rate of a most-specific matching line of the two-tier table. -/
theorem rate_resolution_witness :
    ∃ l ∈ tierTable.line_ids, specLineMatches l 5000 none none = true ∧
      (2 : Rat) = l.rate_percent ∧
      ∀ l2 ∈ tierTable.line_ids, specLineMatches l2 5000 none none = true →
        specKey l2 ≤ specKey l :=
  (rate_resolution tierTable 5000 none none 0).2.1 2 (by decide)

/-- Witness for C2: cancelling a draft ticket is the draft-to-cancelled
transition. -/
theorem ticket_state_machine_witness :
    transitionOK PawnOp.cancel draftTicket
      { draftTicket with state := TicketState.cancelled } :=
  (ticket_state_machine defaultConfig PawnOp.cancel draftTicket).2.1
    { draftTicket with state := TicketState.cancelled } (by rfl)

/-- Witness for C3: forfeiting a draft ticket raises the active-state
error. -/
theorem forfeit_rules_witness :
    action_forfeit defaultConfig 100 draftTicket =
      .error "Only active tickets can be forfeited." :=
  (forfeit_rules defaultConfig 100 draftTicket).1 (by decide)

/-- Witness for C4: the interest of the overdue sample ticket follows the
30-day-month formula. -/
theorem interest_penalty_formulas_witness :
    interest_amount overdueTicket =
      overdueTicket.principal_amount * (overdueTicket.interest_rate / 100) *
        (((30 - 0 : Int) : Rat) / 30) :=
  (interest_penalty_formulas defaultConfig 100 overdueTicket).2.1
    (by decide) 0 30 rfl rfl

/-- Witness for C5: confirming the redeem wizard on the pledged sample
ticket yields the redeemed ticket, whose total due is 0 and whose item
carries a completed release move. -/
theorem total_due_rules_witness :
    redeemedResult.state = .redeemed ∧
    total_due prodConfig 100 redeemedResult = 0 ∧
    ∀ l ∈ redeemedResult.line_ids, ∃ mv ∈ l.stock_move_ids,
      mv.location_dest_id = .customers ∧ mv.state = .done :=
  (total_due_rules prodConfig 100 overdueTicket).2.2 redeemWiz
    redeemedResult (by rfl)

/-- Witness for C6: with a positive appraised value the LTV formula
applies. -/
theorem ltv_rules_witness :
    compute_ltv overdueTicket =
      overdueTicket.principal_amount / appraised_value overdueTicket * 100 :=
  (ltv_rules defaultConfig overdueTicket).1
    (by norm_num [appraised_value, overdueTicket])

/-- Witness for C7: the status flags of the pledged sample ticket follow
the maturity comparisons on day 100. -/
theorem status_indicator_rules_witness :
    (is_due_today 100 overdueTicket = true ↔ (30 : Int) = 100) ∧
    (is_overdue 100 overdueTicket = true ↔ (30 : Int) < 100) ∧
    (is_in_grace defaultConfig 100 overdueTicket = true ↔
      (30 : Int) < 100 ∧
        (30 : Int) + defaultConfig.grace_period_days ≥ 100) :=
  (status_indicator_rules defaultConfig 100 overdueTicket).2.1
    (Or.inl rfl) 30 rfl

/-- Witness for C8: the rejection of the boundary tier exhibits a shared
point of the two closed ranges. -/
theorem overlap_check_rules_witness :
    ∃ l ∈ [lowTier], l.category_id = highTier.category_id ∧
      l.branch_id = highTier.branch_id ∧
      ∃ x, inClosedRange l x ∧ inClosedRange highTier x :=
  ((overlap_check_rules [lowTier] highTier
      (by intro l hl; simp at hl; subst hl; exact lowTier_wf)
      highTier_wf).1).mp
    ⟨"Amount ranges cannot overlap for the same category and branch combination.",
      rfl⟩

/-- Witness for C9: after the custody move of the fresh line, a second
custody-move call returns the already-completed move unchanged. -/
theorem stock_ops_idempotent_witness :
    ∃ m2, create_stock_move TicketState.pledged custodyLine =
        .ok (custodyLine, m2) ∧
      m2 ∈ custodyLine.stock_move_ids ∧
      m2.location_dest_id = .custody ∧ m2.state = .done :=
  (stock_ops_idempotent TicketState.pledged freshLine custodyLine
    (mkDoneMove .customers .custody)).1 (by rfl)

/-- Witness for C10: the pledged sample ticket is missing from the loan
book rows over a population containing it. -/
theorem loan_book_excludes_pledged_witness :
    overdueTicket ∉ loan_book_rows [overdueTicket] :=
  (loan_book_excludes_pledged defaultConfig 100 [overdueTicket]
    overdueTicket "grace").2.2.1 rfl
